import Mathlib

/-!
Verification development for the pulseguard-backend monitoring core.

Shallow embedding of the Python source under `monitoring/`:
  - `monitoring/models.py` (ServerStatus defaults, UserAccount credit ledger,
    NotificationConfig fields)
  - `monitoring/services/check_service.py` (HealthCheckService.run_check)
  - `monitoring/tasks/check_runner.py` (the per-server status reduction inside
    run_all_checks)
  - `monitoring/services/notification_service.py` (NotificationService)
  - `monitoring/views.py` (ServerStatusStreamView.event_stream)

Timestamps are modelled as natural numbers (the code only compares and copies
them); network transports are modelled as oracles passed in explicitly, since
the Python code receives their outcome via exceptions or return values.
Float-valued fields that no modelled operation reads (uptime_percentage, the
rounding of elapsed milliseconds) are carried abstractly or omitted.
-/

namespace PulseGuard

/-- `monitoring/models.py` Server: the fields read by the modelled operations
(`HealthCheckService.run_check` and `Server.full_url`). Remaining columns
(name, owner, organization, check_interval, active flag, ...) are not read by
any modelled operation and are omitted. -/
structure Server where
  protocol : String
  host : String
  port : Nat
  path : String
  timeout : Nat
deriving Repr, DecidableEq

/-- `Server.full_url` property from `monitoring/models.py`. -/
def Server.full_url (s : Server) : String :=
  s.protocol ++ "://" ++ s.host ++ ":" ++ toString s.port ++ s.path

/-- The dict returned by `HealthCheckService.run_check`
(`monitoring/services/check_service.py`): outcome status string, optional HTTP
status code, optional response time (milliseconds), and error message (the
Python code always populates the key, using `""` when there is no error). -/
structure CheckOutcome where
  status : String
  status_code : Option Nat
  response_time : Option Nat
  error_message : String
deriving Repr, DecidableEq

/-- Outcome of the underlying `requests.get` call as seen by `_check_http`:
a completed response (status code, elapsed ms), a `requests.Timeout`, or any
other exception with its text. -/
inductive HttpResult where
  | response (code : Nat) (elapsedMs : Nat)
  | timeout
  | exception (text : String)
deriving Repr, DecidableEq

/-- Outcome of the underlying `socket.create_connection` call as seen by
`_check_tcp`: an established connection (elapsed ms), a `socket.timeout`, or
another `OSError` with its text. -/
inductive TcpResult where
  | connected (elapsedMs : Nat)
  | timeout
  | oserror (text : String)
deriving Repr, DecidableEq

/-- The transport oracle for one probe: what the network would answer if the
corresponding call were made. -/
structure ProbeEnv where
  http : HttpResult
  tcp : TcpResult
deriving Repr, DecidableEq

/-- `HealthCheckService._check_http` (`monitoring/services/check_service.py`
lines 31-58). The elapsed-ms rounding to two decimals is a float detail
carried abstractly as the oracle's `elapsedMs`. -/
def checkHttp (r : HttpResult) : CheckOutcome :=
  match r with
  | .response code elapsedMs =>
      { status := if code < 500 then "success" else "failure"
        status_code := some code
        response_time := some elapsedMs
        error_message := "" }
  | .timeout =>
      { status := "timeout"
        status_code := none
        response_time := none
        error_message := "timeout" }
  | .exception text =>
      { status := "error"
        status_code := none
        response_time := none
        error_message := text }

/-- `HealthCheckService._check_tcp` (`monitoring/services/check_service.py`
lines 60-85). -/
def checkTcp (r : TcpResult) : CheckOutcome :=
  match r with
  | .connected elapsedMs =>
      { status := "success"
        status_code := none
        response_time := some elapsedMs
        error_message := "" }
  | .timeout =>
      { status := "timeout"
        status_code := none
        response_time := none
        error_message := "timeout" }
  | .oserror text =>
      { status := "failure"
        status_code := none
        response_time := none
        error_message := text }

/-- `HealthCheckService.run_check` (`monitoring/services/check_service.py`
lines 16-29): protocol dispatch; `icmp` is a placeholder routed to the TCP
strategy; any other protocol yields an error outcome without touching the
transport. -/
def runCheck (server : Server) (env : ProbeEnv) : CheckOutcome :=
  if server.protocol = "http" ∨ server.protocol = "https" then
    checkHttp env.http
  else if server.protocol = "tcp" then
    checkTcp env.tcp
  else if server.protocol = "icmp" then
    checkTcp env.tcp
  else
    { status := "error"
      status_code := none
      response_time := none
      error_message := "unsupported protocol: " ++ server.protocol }

/-- `monitoring/models.py` ServerStatus: the mutable per-server status row.
`uptime_percentage` (a float the reduction never reads or writes) is omitted;
timestamps are `Option Nat` since the columns are nullable. -/
structure ServerStatus where
  status : String
  last_check : Option Nat
  last_up : Option Nat
  last_down : Option Nat
  consecutive_failures : Nat
  failure_threshold : Nat
  message : Option String
deriving Repr, DecidableEq

/-- The row `ServerStatus.objects.get_or_create` builds from the model's
column defaults (`monitoring/models.py` lines 153-170): status "unknown",
0 consecutive failures, threshold 3, all timestamps and the message unset. -/
def defaultServerStatus : ServerStatus :=
  { status := "unknown"
    last_check := none
    last_up := none
    last_down := none
    consecutive_failures := 0
    failure_threshold := 3
    message := none }

/-- The per-server status reduction inlined in `run_all_checks`
(`monitoring/tasks/check_runner.py` lines 44-58): `last_check = now`
unconditionally; on "success" reset failures, go up, stamp `last_up`,
message "OK"; otherwise increment failures, stamp `last_down`, take the
outcome's error message (falling back to the status string when empty, the
Python `or`), and go down when the incremented count reaches the threshold,
else degraded. -/
def reduceStatus (prior : ServerStatus) (outcome : CheckOutcome) (now : Nat) :
    ServerStatus :=
  let s := { prior with last_check := some now }
  if outcome.status = "success" then
    { s with
      consecutive_failures := 0
      status := "up"
      last_up := some now
      message := some "OK" }
  else
    let cf := s.consecutive_failures + 1
    let msg := if outcome.error_message = "" then outcome.status
               else outcome.error_message
    { s with
      consecutive_failures := cf
      last_down := some now
      message := some msg
      status := if s.failure_threshold ≤ cf then "down" else "degraded" }

/-- Iterated reduction: one `(outcome, now)` pair per check cycle, applied in
order, as successive cycles of `run_all_checks` would. -/
def runOutcomes (s : ServerStatus) (os : List (CheckOutcome × Nat)) :
    ServerStatus :=
  os.foldl (fun st p => reduceStatus st p.1 p.2) s

/-- `monitoring/models.py` NotificationConfig: the fields
`NotificationService` reads. `updated_at` (the auto_now column doubling as
the last-sent cursor) is optional because `_can_send_notification` guards
`if not config.updated_at`. -/
structure NotificationConfig where
  notification_type : String
  recipient : String
  enabled : Bool
  notify_on_failure : Bool
  notify_on_recovery : Bool
  min_notification_interval : Nat
  updated_at : Option Nat
deriving Repr, DecidableEq

/-- `monitoring/models.py` UserAccount: the two credit counters (Django
IntegerField, hence `Int`). -/
structure UserAccount where
  sms_credits : Int
  email_credits : Int
deriving Repr, DecidableEq

/-- `UserAccount.consume_email` (`monitoring/models.py` lines 333-339):
refuse when the counter is at or below zero, else decrement by one; the
boolean is the method's return value. -/
def consumeEmail (a : UserAccount) : UserAccount × Bool :=
  if a.email_credits ≤ 0 then (a, false)
  else ({ a with email_credits := a.email_credits - 1 }, true)

/-- `UserAccount.consume_sms` (`monitoring/models.py` lines 325-331). -/
def consumeSms (a : UserAccount) : UserAccount × Bool :=
  if a.sms_credits ≤ 0 then (a, false)
  else ({ a with sms_credits := a.sms_credits - 1 }, true)

/-- `NotificationService._can_send_notification`
(`monitoring/services/notification_service.py` lines 68-78): a config never
stamped is always eligible; otherwise eligible exactly when the time since
the last stamp has reached the configured minimum interval. -/
def canSend (config : NotificationConfig) (now : Nat) : Bool :=
  match config.updated_at with
  | none => true
  | some t =>
      decide ((config.min_notification_interval : Int) ≤ (now : Int) - (t : Int))

/-- Django settings flags and external-transport outcomes that one channel
send depends on, plus the time used to stamp the cooldown cursor. -/
structure NotifyEnv where
  email_enabled : Bool
  sms_enabled : Bool
  smsCredentialed : Bool
  emailSendOk : Bool
  smsSendOk : Bool
  webhookOk : Bool
  now : Nat
deriving Repr, DecidableEq

/-- Result of one channel send: whether the external transport was invoked
successfully, and the account and config rows afterwards. -/
structure SendResult where
  sent : Bool
  account : Option UserAccount
  config : NotificationConfig
deriving Repr, DecidableEq

/-- The guard `if account and account.email_credits <= 0` in `_send_email`. -/
def emailBlocked : Option UserAccount → Bool
  | some a => decide (a.email_credits ≤ 0)
  | none => false

/-- The guard `if account and account.sms_credits <= 0` in `_send_sms`. -/
def smsBlocked : Option UserAccount → Bool
  | some a => decide (a.sms_credits ≤ 0)
  | none => false

/-- `NotificationService._send_email`
(`monitoring/services/notification_service.py` lines 96-156): return when
email notifications are disabled; skip without consuming when a resolved
account has `email_credits <= 0`; otherwise call the mail transport and, on
success, consume one email credit (when an account exists) and stamp
`config.updated_at`. A transport exception changes nothing. -/
def sendEmail (env : NotifyEnv) (account : Option UserAccount)
    (config : NotificationConfig) : SendResult :=
  if !env.email_enabled then ⟨false, account, config⟩
  else if emailBlocked account then ⟨false, account, config⟩
  else if env.emailSendOk then
    ⟨true, account.map (fun a => (consumeEmail a).1),
      { config with updated_at := some env.now }⟩
  else ⟨false, account, config⟩

/-- `NotificationService._send_sms`
(`monitoring/services/notification_service.py` lines 158-205): disabled
setting, exhausted credits and missing Twilio credentials each return without
sending; otherwise the gateway is called and, on success, one SMS credit is
consumed (when an account exists) and `config.updated_at` is stamped. -/
def sendSms (env : NotifyEnv) (account : Option UserAccount)
    (config : NotificationConfig) : SendResult :=
  if !env.sms_enabled then ⟨false, account, config⟩
  else if smsBlocked account then ⟨false, account, config⟩
  else if !env.smsCredentialed then ⟨false, account, config⟩
  else if env.smsSendOk then
    ⟨true, account.map (fun a => (consumeSms a).1),
      { config with updated_at := some env.now }⟩
  else ⟨false, account, config⟩

/-- `NotificationService._send_webhook`
(`monitoring/services/notification_service.py` lines 207-248): POST the
payload; on a 2xx response stamp the cooldown cursor; the credit ledger is
never touched. -/
def sendWebhook (env : NotifyEnv) (account : Option UserAccount)
    (config : NotificationConfig) : SendResult :=
  if env.webhookOk then
    ⟨true, account, { config with updated_at := some env.now }⟩
  else ⟨false, account, config⟩

/-- Python truthiness of the `previous_status: Optional[str]` argument:
`None` and the empty string are falsy. -/
def strTruthy : Option String → Bool
  | none => false
  | some s => !(s == "")

/-- The channel types the dispatch loop in `notify_status_change` handles; a
config with any other `notification_type` falls through the if/elif chain
and nothing is sent for it. -/
def knownChannel (t : String) : Bool :=
  t == "email" || t == "sms" || t == "webhook"

/-- `NotificationService.notify_status_change`
(`monitoring/services/notification_service.py` lines 23-66) reduced to the
dispatch decisions it makes: return the (config, is_recovery) pairs, in
order, for exactly those configs that reach a channel send function. The
queryset filters (server, enabled, per-direction flag) and the per-config
rate-limit `continue` are applied as list filters. -/
def notifyDispatches (configs : List NotificationConfig) (statusStr : String)
    (previous : Option String) (now : Nat) :
    List (NotificationConfig × Bool) :=
  if strTruthy previous && (previous == some statusStr) then []
  else
    let is_failure := statusStr == "down" || statusStr == "degraded"
    let is_recovery :=
      (previous == some "down" || previous == some "degraded")
        && statusStr == "up"
    if !is_failure && !is_recovery then []
    else
      let selected := configs.filter fun c =>
        c.enabled
          && (if is_failure then c.notify_on_failure else c.notify_on_recovery)
      ((selected.filter fun c => canSend c now).filter
        fun c => knownChannel c.notification_type).map fun c => (c, is_recovery)

/-- A `ServerStatus` row as `ServerStatusStreamView` reads it
(`monitoring/views.py`): the server id and name, the status value, and the
auto_now `updated_at` column the `since` cursor filters on. -/
structure StatusRow where
  server_id : Nat
  name : String
  status : String
  updated_at : Nat
deriving Repr, DecidableEq

/-- A `PingResult` row as the stream view reads it. -/
structure PingRow where
  server_id : Nat
  status : String
  check_timestamp : Nat
deriving Repr, DecidableEq

/-- One chunk yielded by `event_stream` inside
`ServerStatusStreamView.get` (`monitoring/views.py` lines 144-199). -/
inductive StreamChunk where
  | retryDirective (ms : Nat)
  | statusEvent (row : StatusRow)
  | pingEvent (row : PingRow)
  | heartbeat
deriving Repr, DecidableEq

/-- `event_stream` (`monitoring/views.py` lines 144-199): one `retry: 5000`
directive; the status rows filtered by the optional status value, server-id
list and `since` cursor (`updated_at` strictly newer), ordered by server
name; the ping rows filtered by server ids and `since` (`check_timestamp`
strictly newer), newest first, truncated to `ping_limit`; one heartbeat
marker; then the stream ends. The organization scoping is modelled by the
input lists already being the requesting user's rows. -/
def eventStream (statuses : List StatusRow) (pings : List PingRow)
    (statusFilter : Option String) (serverIds : Option (List Nat))
    (since : Option Nat) (pingLimit : Nat) : List StreamChunk :=
  let qs : List StatusRow := match statusFilter with
    | some f => statuses.filter fun r => r.status == f
    | none => statuses
  let qs : List StatusRow := match serverIds with
    | some ids => qs.filter fun r => ids.contains r.server_id
    | none => qs
  let qs : List StatusRow := match since with
    | some t => qs.filter fun r => t < r.updated_at
    | none => qs
  let qs := qs.mergeSort fun a b => decide (a.name ≤ b.name)
  let ps : List PingRow := match serverIds with
    | some ids => pings.filter fun r => ids.contains r.server_id
    | none => pings
  let ps : List PingRow := match since with
    | some t => ps.filter fun r => t < r.check_timestamp
    | none => ps
  let ps :=
    (ps.mergeSort fun a b => decide (b.check_timestamp ≤ a.check_timestamp)).take
      pingLimit
  StreamChunk.retryDirective 5000 ::
    (qs.map StreamChunk.statusEvent ++ ps.map StreamChunk.pingEvent
      ++ [StreamChunk.heartbeat])

/-- A concrete successful probe outcome, as `_check_http` returns it for a
200 response. -/
def outcomeOk : CheckOutcome := checkHttp (HttpResult.response 200 12)

/-- A concrete timeout probe outcome, as `_check_http` returns it when
`requests.Timeout` is raised. -/
def outcomeTimedOut : CheckOutcome := checkHttp HttpResult.timeout

/-- C1: for every server processed in a check cycle, the status reduction
satisfies the spec's postconditions. If the probe outcome is success then
consecutive_failures is reset to 0, status to "up", last_up to now and the
message to "OK"; on any non-success the counter is incremented by one,
last_down is stamped, the message is the outcome's error message when
non-empty else its status string, and the status is "down" when the counter
reaches failure_threshold, else "degraded"; last_check is set to now in both
cases and failure_threshold is never altered. -/
theorem reduceStatus_postconditions (prior : ServerStatus)
    (outcome : CheckOutcome) (now : Nat) :
    (reduceStatus prior outcome now).last_check = some now ∧
    (reduceStatus prior outcome now).failure_threshold =
      prior.failure_threshold ∧
    (outcome.status = "success" →
      (reduceStatus prior outcome now).consecutive_failures = 0 ∧
      (reduceStatus prior outcome now).status = "up" ∧
      (reduceStatus prior outcome now).last_up = some now ∧
      (reduceStatus prior outcome now).message = some "OK") ∧
    (outcome.status ≠ "success" →
      (reduceStatus prior outcome now).consecutive_failures =
        prior.consecutive_failures + 1 ∧
      (reduceStatus prior outcome now).last_down = some now ∧
      (reduceStatus prior outcome now).message =
        some (if outcome.error_message = "" then outcome.status
              else outcome.error_message) ∧
      (prior.failure_threshold ≤
          (reduceStatus prior outcome now).consecutive_failures →
        (reduceStatus prior outcome now).status = "down") ∧
      ((reduceStatus prior outcome now).consecutive_failures <
          prior.failure_threshold →
        (reduceStatus prior outcome now).status = "degraded")) := by
  by_cases h : outcome.status = "success"
  · simp [reduceStatus, h]
  · refine ⟨by simp [reduceStatus, h], by simp [reduceStatus, h],
      by simp [h], fun _ => ⟨by simp [reduceStatus, h],
      by simp [reduceStatus, h], by simp [reduceStatus, h], ?_, ?_⟩⟩ <;>
      simp only [reduceStatus, if_neg h] <;> intro hcf <;> split <;>
      first
        | rfl
        | · exfalso; omega

/-- Witness for C1 at concrete inputs: the default status row reduced with a
200-response outcome goes up, and reduced with a timeout outcome (threshold
3, one failure) goes degraded. -/
theorem reduceStatus_postconditions_witness :
    (reduceStatus defaultServerStatus outcomeOk 7).status = "up" ∧
    (reduceStatus defaultServerStatus outcomeTimedOut 7).status =
      "degraded" := by
  constructor
  · exact ((reduceStatus_postconditions defaultServerStatus outcomeOk
      7).2.2.1 (by decide)).2.1
  · exact ((reduceStatus_postconditions defaultServerStatus outcomeTimedOut
      7).2.2.2 (by decide)).2.2.2.2 (by decide)

/-- C2: after every application of the status reduction, for any prior
status record and any probe outcome, the resulting row satisfies the
invariant: "down" implies the failure counter reached the threshold,
"degraded" implies the counter is strictly between 0 and the threshold, and
"up" implies the counter is 0. -/
theorem reduceStatus_invariant (prior : ServerStatus) (outcome : CheckOutcome)
    (now : Nat) :
    ((reduceStatus prior outcome now).status = "down" →
      (reduceStatus prior outcome now).failure_threshold ≤
        (reduceStatus prior outcome now).consecutive_failures) ∧
    ((reduceStatus prior outcome now).status = "degraded" →
      0 < (reduceStatus prior outcome now).consecutive_failures ∧
      (reduceStatus prior outcome now).consecutive_failures <
        (reduceStatus prior outcome now).failure_threshold) ∧
    ((reduceStatus prior outcome now).status = "up" →
      (reduceStatus prior outcome now).consecutive_failures = 0) := by
  by_cases h : outcome.status = "success"
  · simp [reduceStatus, h]
  · simp only [reduceStatus, if_neg h]
    refine ⟨?_, ?_, ?_⟩ <;> split <;> simp_all

/-- Witness for C2 at a concrete input: one timeout against the default row
(threshold 3) yields a degraded row whose counter lies strictly between 0
and the threshold. -/
theorem reduceStatus_invariant_witness :
    0 < (reduceStatus defaultServerStatus outcomeTimedOut 3).consecutive_failures ∧
    (reduceStatus defaultServerStatus outcomeTimedOut 3).consecutive_failures <
      (reduceStatus defaultServerStatus outcomeTimedOut 3).failure_threshold :=
  (reduceStatus_invariant defaultServerStatus outcomeTimedOut 3).2.1
    (by decide)

/-- C10: the status reduction always yields "up", "down" or "degraded" —
never "unknown" — while the lazily created row
(`ServerStatus.objects.get_or_create` with the model defaults) starts as
"unknown" before its first reduction. -/
theorem reduceStatus_never_unknown (prior : ServerStatus)
    (outcome : CheckOutcome) (now : Nat) :
    ((reduceStatus prior outcome now).status = "up" ∨
     (reduceStatus prior outcome now).status = "down" ∨
     (reduceStatus prior outcome now).status = "degraded") ∧
    (reduceStatus prior outcome now).status ≠ "unknown" ∧
    defaultServerStatus.status = "unknown" := by
  by_cases h : outcome.status = "success"
  · simp [reduceStatus, h, defaultServerStatus]
  · simp only [reduceStatus, if_neg h]
    refine ⟨?_, ?_, by simp [defaultServerStatus]⟩ <;> split <;> simp

/-- Witness for C10 at a concrete input: reducing the default (unknown) row
with a timeout outcome leaves the "unknown" value behind. -/
theorem reduceStatus_never_unknown_witness :
    (reduceStatus defaultServerStatus outcomeTimedOut 3).status ≠ "unknown" :=
  (reduceStatus_never_unknown defaultServerStatus outcomeTimedOut 3).2.1

/-- Auxiliary: a run of non-success outcomes adds its length to the failure
counter, leaves the threshold unchanged and, when non-empty, ends "down" or
"degraded" according to the final counter measured against the threshold. -/
theorem runOutcomes_failures (os : List (CheckOutcome × Nat)) :
    ∀ s : ServerStatus, (∀ p ∈ os, p.1.status ≠ "success") →
      (runOutcomes s os).consecutive_failures =
        s.consecutive_failures + os.length ∧
      (runOutcomes s os).failure_threshold = s.failure_threshold ∧
      (os ≠ [] →
        (runOutcomes s os).status =
          (if s.failure_threshold ≤ s.consecutive_failures + os.length
           then "down" else "degraded")) := by
  induction os with
  | nil => intro s _; simp [runOutcomes]
  | cons p rest ih =>
    intro s h
    have hp : p.1.status ≠ "success" := h p (by simp)
    have hrest : ∀ q ∈ rest, q.1.status ≠ "success" := fun q hq =>
      h q (by simp [hq])
    have h1 : (reduceStatus s p.1 p.2).consecutive_failures =
        s.consecutive_failures + 1 := by simp [reduceStatus, hp]
    have h2 : (reduceStatus s p.1 p.2).failure_threshold =
        s.failure_threshold := by simp [reduceStatus, hp]
    have h3 : (reduceStatus s p.1 p.2).status =
        (if s.failure_threshold ≤ s.consecutive_failures + 1 then "down"
         else "degraded") := by simp [reduceStatus, hp]
    have hrun : runOutcomes s (p :: rest) =
        runOutcomes (reduceStatus s p.1 p.2) rest := rfl
    obtain ⟨ih1, ih2, ih3⟩ := ih (reduceStatus s p.1 p.2) hrest
    rw [hrun]
    refine ⟨by rw [ih1, h1]; simp [List.length_cons]; omega,
      by rw [ih2, h2], ?_⟩
    intro _
    cases rest with
    | nil =>
        have : runOutcomes (reduceStatus s p.1 p.2) [] =
            reduceStatus s p.1 p.2 := rfl
        rw [this, h3]
        simp
    | cons q rest2 =>
        rw [ih3 (by simp), h1, h2]
        have hlen : s.consecutive_failures + 1 + (q :: rest2).length =
            s.consecutive_failures + (p :: q :: rest2).length := by
          simp [List.length_cons]; omega
        rw [hlen]

/-- An up status row with zero consecutive failures and failure_threshold 1,
as the spec's end-to-end scenario A configures a server. -/
def upStatusT1 : ServerStatus :=
  { status := "up"
    last_check := none
    last_up := none
    last_down := none
    consecutive_failures := 0
    failure_threshold := 1
    message := none }

/-- An up status row with zero consecutive failures and failure_threshold 2. -/
def upStatusT2 : ServerStatus :=
  { status := "up"
    last_check := none
    last_up := none
    last_down := none
    consecutive_failures := 0
    failure_threshold := 2
    message := none }

/-- C3 counterexample: with failure_threshold = 1 — the spec's own scenario
A — a server that is up with zero consecutive failures transitions directly
to "down" on its first non-success outcome, never passing through
"degraded". This refutes the claim's clause that the status never moves from
up to down without passing through degraded. -/
theorem up_to_down_skips_degraded :
    upStatusT1.status = "up" ∧
    upStatusT1.consecutive_failures = 0 ∧
    outcomeTimedOut.status ≠ "success" ∧
    (reduceStatus upStatusT1 outcomeTimedOut 1).status = "down" := by decide

/-- C3 amended: for every server starting from "up" with zero consecutive
failures and failure_threshold T ≥ 1, after T consecutive non-success
outcomes the status is "down" and after k of them with 1 ≤ k ≤ T-1 it is
"degraded"; moreover when T ≥ 2 the status never transitions directly from
up to down — a single reduction from such an up state cannot yield "down"
(with T = 1 it does, as the counterexample records). -/
theorem consecutive_failures_hysteresis (s : ServerStatus)
    (os : List (CheckOutcome × Nat))
    (hup : s.status = "up") (hcf : s.consecutive_failures = 0)
    (hT : 1 ≤ s.failure_threshold)
    (hfail : ∀ p ∈ os, p.1.status ≠ "success") :
    (os.length = s.failure_threshold → (runOutcomes s os).status = "down") ∧
    (1 ≤ os.length → os.length < s.failure_threshold →
      (runOutcomes s os).status = "degraded") ∧
    (2 ≤ s.failure_threshold → ∀ (o : CheckOutcome) (n : Nat),
      (reduceStatus s o n).status ≠ "down") := by
  obtain ⟨-, -, h3⟩ := runOutcomes_failures os s hfail
  refine ⟨?_, ?_, ?_⟩
  · intro hlen
    have hne : os ≠ [] := by
      intro hnil; rw [hnil] at hlen; simp at hlen; omega
    rw [h3 hne, hcf, hlen]
    simp
  · intro hlen1 hlen2
    have hne : os ≠ [] := by
      intro hnil; rw [hnil] at hlen1; simp at hlen1
    rw [h3 hne, hcf]
    simp
    omega
  · intro hT2 o n
    by_cases hsucc : o.status = "success"
    · simp [reduceStatus, hsucc]
    · simp only [reduceStatus, if_neg hsucc]
      rw [hcf]
      split
      · exfalso; omega
      · simp

/-- Witness for C3 (amended) at concrete inputs: with threshold 2, two
timeouts take the up row to "down" while a single timeout only takes it to
"degraded". -/
theorem consecutive_failures_hysteresis_witness :
    (runOutcomes upStatusT2
      [(outcomeTimedOut, 1), (outcomeTimedOut, 2)]).status = "down" ∧
    (runOutcomes upStatusT2 [(outcomeTimedOut, 1)]).status = "degraded" := by
  constructor
  · exact (consecutive_failures_hysteresis upStatusT2
      [(outcomeTimedOut, 1), (outcomeTimedOut, 2)] (by decide) (by decide)
      (by decide) (by decide)).1 (by decide)
  · exact (consecutive_failures_hysteresis upStatusT2
      [(outcomeTimedOut, 1)] (by decide) (by decide)
      (by decide) (by decide)).2.1 (by decide) (by decide)

/-- A concrete http server configuration. -/
def serverHttp : Server :=
  { protocol := "http"
    host := "example.org"
    port := 80
    path := "/"
    timeout := 5 }

/-- A concrete server configured with a protocol the service does not
support. -/
def serverGopher : Server :=
  { protocol := "gopher"
    host := "example.org"
    port := 70
    path := "/"
    timeout := 5 }

/-- C4: probe outcome classification. For http/https servers: a completed
transport is "success" exactly when the response code is < 500 and "failure"
exactly when it is ≥ 500; a timeout-specific transport error is "timeout";
any other transport failure is "error" with the exception text captured
verbatim as error_message. For a protocol outside http/https/tcp/icmp the
outcome is "error" with a message naming the unsupported protocol, and no
network call is attempted: the result is independent of the transport
oracle. -/
theorem runCheck_classification (server : Server) (env : ProbeEnv) :
    ((server.protocol = "http" ∨ server.protocol = "https") →
      (∀ code ms, env.http = HttpResult.response code ms →
        (((runCheck server env).status = "success") ↔ code < 500) ∧
        (((runCheck server env).status = "failure") ↔ 500 ≤ code)) ∧
      (env.http = HttpResult.timeout →
        (runCheck server env).status = "timeout") ∧
      (∀ text, env.http = HttpResult.exception text →
        (runCheck server env).status = "error" ∧
        (runCheck server env).error_message = text)) ∧
    ((server.protocol ≠ "http" ∧ server.protocol ≠ "https" ∧
      server.protocol ≠ "tcp" ∧ server.protocol ≠ "icmp") →
      (runCheck server env).status = "error" ∧
      (runCheck server env).error_message =
        "unsupported protocol: " ++ server.protocol ∧
      ∀ env2 : ProbeEnv, runCheck server env = runCheck server env2) := by
  constructor
  · intro hp
    have hrc : runCheck server env = checkHttp env.http := by
      simp only [runCheck, if_pos hp]
    refine ⟨?_, ?_, ?_⟩
    · intro code ms he
      rw [hrc, he]
      by_cases hc : code < 500 <;> simp [checkHttp, hc] <;> omega
    · intro he
      rw [hrc, he]
      rfl
    · intro text he
      rw [hrc, he]
      exact ⟨rfl, rfl⟩
  · rintro ⟨h1, h2, h3, h4⟩
    have hor : ¬ (server.protocol = "http" ∨ server.protocol = "https") := by
      tauto
    refine ⟨?_, ?_, ?_⟩
    · simp only [runCheck, if_neg hor, if_neg h3, if_neg h4]
    · simp only [runCheck, if_neg hor, if_neg h3, if_neg h4]
    · intro env2
      simp only [runCheck, if_neg hor, if_neg h3, if_neg h4]

/-- Witness for C4 at concrete inputs: an http probe answered with a 200
classifies as success, and a gopher server yields the unsupported-protocol
error message. -/
theorem runCheck_classification_witness :
    (runCheck serverHttp ⟨HttpResult.response 200 12, TcpResult.timeout⟩).status
      = "success" ∧
    (runCheck serverGopher
      ⟨HttpResult.response 200 12, TcpResult.timeout⟩).error_message =
      "unsupported protocol: gopher" := by
  constructor
  · exact (((runCheck_classification serverHttp
      ⟨HttpResult.response 200 12, TcpResult.timeout⟩).1
      (Or.inl rfl)).1 200 12 rfl).1.mpr (by omega)
  · exact ((runCheck_classification serverGopher
      ⟨HttpResult.response 200 12, TcpResult.timeout⟩).2
      ⟨by decide, by decide, by decide, by decide⟩).2.1

/-- An enabled email notification config, alerting on both directions, with
no prior send stamp. -/
def emailConfig : NotificationConfig :=
  { notification_type := "email"
    recipient := "ops at example.org"
    enabled := true
    notify_on_failure := true
    notify_on_recovery := true
    min_notification_interval := 300
    updated_at := none }

/-- C5 counterexample: on a degraded→down transition the dispatcher does
fire. The new status "down" classifies the transition as a failure-alert,
so an enabled failure config reaches the email channel (with the recovery
flag false); the claim's clause that a degraded→down transition "does not
refire" (attempts nothing) is false on the code. -/
theorem degraded_to_down_refires :
    notifyDispatches [emailConfig] "down" (some "degraded") 0 =
      [(emailConfig, false)] := by decide

/-- C5 amended: a notification is attempted only when the transition is a
failure-alert (new status "down" or "degraded") or a recovery (old status
"down" or "degraded" and new status "up"); anything outside those two
classes is a no-op, and in particular up→up triggers nothing; a
degraded→down transition never triggers a recovery notification — it fires
as a failure-alert instead (the counterexample records that it does fire,
contrary to the original claim's no-op clause). -/
theorem notifyDispatches_classification (configs : List NotificationConfig)
    (statusStr : String) (previous : Option String) (now : Nat) :
    (notifyDispatches configs statusStr previous now ≠ [] →
      (statusStr = "down" ∨ statusStr = "degraded") ∨
      ((previous = some "down" ∨ previous = some "degraded") ∧
        statusStr = "up")) ∧
    (previous = some "up" → statusStr = "up" →
      notifyDispatches configs statusStr previous now = []) ∧
    (previous = some "degraded" → statusStr = "down" →
      ∀ d ∈ notifyDispatches configs statusStr previous now,
        d.2 = false) := by
  refine ⟨?_, ?_, ?_⟩
  · intro hne
    simp only [notifyDispatches] at hne
    split at hne
    · simp at hne
    · split at hne
      · simp at hne
      · rename_i hcond
        by_cases h1 : statusStr = "down"
        · exact Or.inl (Or.inl h1)
        by_cases h2 : statusStr = "degraded"
        · exact Or.inl (Or.inr h2)
        have hf : (statusStr == "down" || statusStr == "degraded") = false := by
          simp [h1, h2]
        cases hrb : ((previous == some "down" || previous == some "degraded")
            && statusStr == "up") with
        | false => exact absurd (by simp [hf, hrb]) hcond
        | true =>
            simp only [Bool.and_eq_true, Bool.or_eq_true, beq_iff_eq] at hrb
            exact Or.inr ⟨hrb.1, hrb.2⟩
  · intro hprev hstat
    subst hprev; subst hstat
    simp [notifyDispatches, strTruthy]
  · intro hprev hstat
    subst hprev; subst hstat
    intro d hd
    simp [notifyDispatches, strTruthy] at hd
    obtain ⟨c, -, hd2⟩ := hd
    rw [← hd2]

/-- Witness for C5 (amended) at a concrete input: an up→up report attempts
nothing even with an enabled config present. -/
theorem notifyDispatches_classification_witness :
    notifyDispatches [emailConfig] "up" (some "up") 0 = [] :=
  (notifyDispatches_classification [emailConfig] "up" (some "up") 0).2.1
    rfl rfl

/-- The same email config with a last-sent stamp. -/
def emailConfigStamped : NotificationConfig :=
  { emailConfig with updated_at := some 100 }

/-- C6: the cooldown rule. A config with a last-sent stamp is skipped by the
rate limit exactly when now minus the stamp is strictly below its minimum
interval; a config with no prior send is always eligible; and every config
that reaches a channel send inside the dispatch loop passed the cooldown
check. -/
theorem canSend_cooldown (config : NotificationConfig) (now : Nat) :
    (∀ t, config.updated_at = some t →
      (canSend config now = false ↔
        (now : Int) - (t : Int) <
          (config.min_notification_interval : Int))) ∧
    (config.updated_at = none → canSend config now = true) ∧
    (∀ (configs : List NotificationConfig) (statusStr : String)
        (previous : Option String) (d : NotificationConfig × Bool),
      d ∈ notifyDispatches configs statusStr previous now →
      canSend d.1 now = true) := by
  refine ⟨?_, ?_, ?_⟩
  · intro t ht
    simp [canSend, ht]
  · intro ht
    simp [canSend, ht]
  · intro configs statusStr previous d hd
    simp only [notifyDispatches] at hd
    split at hd
    · simp at hd
    · split at hd
      · simp at hd
      · simp only [List.mem_map, List.mem_filter] at hd
        obtain ⟨c, ⟨⟨hsel, hcan⟩, hknown⟩, hdc⟩ := hd
        rw [← hdc]
        exact hcan

/-- Witness for C6 at concrete inputs: the unstamped config is eligible at
any time, while the config stamped at 100 is still rate-limited at 150
(only 50 of its 300-second interval elapsed). -/
theorem canSend_cooldown_witness :
    canSend emailConfig 5 = true ∧
    canSend emailConfigStamped 150 = false := by
  constructor
  · exact (canSend_cooldown emailConfig 5).2.1 rfl
  · exact ((canSend_cooldown emailConfigStamped 150).1 100 rfl).mpr
      (by decide)

/-- C7: credit gating on the metered channels. An email (resp. SMS) send
whose resolved account has its counter at or below zero is skipped entirely
— nothing is sent, the account is unchanged; every successful send on a
credited channel decrements exactly 1 from the matching counter; and a
counter that was non-negative is never driven negative. -/
theorem credit_gating (env : NotifyEnv) (account : Option UserAccount)
    (config : NotificationConfig) (a : UserAccount) :
    (account = some a → a.email_credits ≤ 0 →
      sendEmail env account config =
        { sent := false, account := account, config := config }) ∧
    (account = some a → a.sms_credits ≤ 0 →
      sendSms env account config =
        { sent := false, account := account, config := config }) ∧
    (account = some a → (sendEmail env account config).sent = true →
      (sendEmail env account config).account =
        some { a with email_credits := a.email_credits - 1 }) ∧
    (account = some a → (sendSms env account config).sent = true →
      (sendSms env account config).account =
        some { a with sms_credits := a.sms_credits - 1 }) ∧
    (account = some a → 0 ≤ a.email_credits → 0 ≤ a.sms_credits →
      ∀ b : UserAccount,
        ((sendEmail env account config).account = some b →
          0 ≤ b.email_credits) ∧
        ((sendSms env account config).account = some b →
          0 ≤ b.sms_credits)) := by
  refine ⟨?_, ?_, ?_, ?_, ?_⟩
  · rintro rfl hle
    by_cases h1 : env.email_enabled <;>
      simp [sendEmail, emailBlocked, h1, hle]
  · rintro rfl hle
    by_cases h1 : env.sms_enabled <;>
      simp [sendSms, smsBlocked, h1, hle]
  · rintro rfl hs
    by_cases h1 : env.email_enabled
    · by_cases h2 : a.email_credits ≤ 0
      · simp [sendEmail, emailBlocked, h1, h2] at hs
      · by_cases h3 : env.emailSendOk
        · simp [sendEmail, emailBlocked, h1, h2, h3, consumeEmail]
        · simp [sendEmail, emailBlocked, h1, h2, h3] at hs
    · simp [sendEmail, h1] at hs
  · rintro rfl hs
    by_cases h1 : env.sms_enabled
    · by_cases h2 : a.sms_credits ≤ 0
      · simp [sendSms, smsBlocked, h1, h2] at hs
      · by_cases h3 : env.smsCredentialed
        · by_cases h4 : env.smsSendOk
          · simp [sendSms, smsBlocked, h1, h2, h3, h4, consumeSms]
          · simp [sendSms, smsBlocked, h1, h2, h3, h4] at hs
        · simp [sendSms, smsBlocked, h1, h2, h3] at hs
    · simp [sendSms, h1] at hs
  · rintro rfl hee hss b
    constructor
    · intro hb
      by_cases h1 : env.email_enabled
      · by_cases h2 : a.email_credits ≤ 0
        · simp [sendEmail, emailBlocked, h1, h2] at hb
          rw [← hb]; exact hee
        · by_cases h3 : env.emailSendOk
          · simp [sendEmail, emailBlocked, h1, h2, h3, consumeEmail] at hb
            rw [← hb]
            simp
            omega
          · simp [sendEmail, emailBlocked, h1, h2, h3] at hb
            rw [← hb]; exact hee
      · simp [sendEmail, h1] at hb
        rw [← hb]; exact hee
    · intro hb
      by_cases h1 : env.sms_enabled
      · by_cases h2 : a.sms_credits ≤ 0
        · simp [sendSms, smsBlocked, h1, h2] at hb
          rw [← hb]; exact hss
        · by_cases h3 : env.smsCredentialed
          · by_cases h4 : env.smsSendOk
            · simp [sendSms, smsBlocked, h1, h2, h3, h4, consumeSms] at hb
              rw [← hb]
              simp
              omega
            · simp [sendSms, smsBlocked, h1, h2, h3, h4] at hb
              rw [← hb]; exact hss
          · simp [sendSms, smsBlocked, h1, h2, h3] at hb
            rw [← hb]; exact hss
      · simp [sendSms, h1] at hb
        rw [← hb]; exact hss

/-- An exhausted credit account. -/
def acctZero : UserAccount := { sms_credits := 0, email_credits := 0 }

/-- A notification environment with every setting enabled and every
transport succeeding. -/
def envAllOn : NotifyEnv :=
  { email_enabled := true
    sms_enabled := true
    smsCredentialed := true
    emailSendOk := true
    smsSendOk := true
    webhookOk := true
    now := 50 }

/-- Witness for C7 at a concrete input: with zero email credits an eligible
email notification is skipped and the account is left untouched, even with
every setting enabled and the mail transport available. -/
theorem credit_gating_witness :
    sendEmail envAllOn (some acctZero) emailConfig =
      { sent := false, account := some acctZero, config := emailConfig } :=
  (credit_gating envAllOn (some acctZero) emailConfig acctZero).1 rfl
    (by decide)

/-- C9: a server that resolves to no credit account (no organization-level
and no owner-level billing account) sends without any credit check: the
email (resp. SMS) send proceeds exactly when the settings flag and the
transport permit, independent of any credit state, and no counter is
decremented — absence of an account behaves as unlimited credit, not as
exhaustion. -/
theorem no_account_unlimited (env : NotifyEnv) (config : NotificationConfig) :
    (sendEmail env none config).sent =
      (env.email_enabled && env.emailSendOk) ∧
    (sendEmail env none config).account = none ∧
    (sendSms env none config).sent =
      (env.sms_enabled && (env.smsCredentialed && env.smsSendOk)) ∧
    (sendSms env none config).account = none := by
  by_cases h1 : env.email_enabled <;> by_cases h2 : env.emailSendOk <;>
    by_cases h3 : env.sms_enabled <;> by_cases h4 : env.smsCredentialed <;>
    by_cases h5 : env.smsSendOk <;>
    simp [sendEmail, sendSms, emailBlocked, smsBlocked, h1, h2, h3, h4, h5]

/-- C8: a resumable-stream request whose since cursor is later than every
stored status update and every ping timestamp emits zero status events and
zero ping events, yet still exactly one leading retry directive and exactly
one trailing heartbeat marker, in that order, and then the stream ends. -/
theorem eventStream_future_cursor (statuses : List StatusRow)
    (pings : List PingRow) (statusFilter : Option String)
    (serverIds : Option (List Nat)) (since : Nat) (pingLimit : Nat)
    (hs : ∀ r ∈ statuses, r.updated_at < since)
    (hp : ∀ r ∈ pings, r.check_timestamp < since) :
    eventStream statuses pings statusFilter serverIds (some since) pingLimit =
      [StreamChunk.retryDirective 5000, StreamChunk.heartbeat] := by
  have hq : ∀ l : List StatusRow, (∀ r ∈ l, r.updated_at < since) →
      (l.filter fun r => since < r.updated_at) = [] := by
    intro l hl
    rw [List.filter_eq_nil_iff]
    intro r hr
    have := hl r hr
    simp
    omega
  have hq2 : ∀ l : List PingRow, (∀ r ∈ l, r.check_timestamp < since) →
      (l.filter fun r => since < r.check_timestamp) = [] := by
    intro l hl
    rw [List.filter_eq_nil_iff]
    intro r hr
    have := hl r hr
    simp
    omega
  cases statusFilter with
  | none =>
    cases serverIds with
    | none =>
        simp only [eventStream]
        rw [hq statuses hs, hq2 pings hp]
        simp
    | some ids =>
        simp only [eventStream]
        rw [hq _ (fun r hr => hs r (List.mem_of_mem_filter hr)),
          hq2 _ (fun r hr => hp r (List.mem_of_mem_filter hr))]
        simp
  | some f =>
    cases serverIds with
    | none =>
        simp only [eventStream]
        rw [hq _ (fun r hr => hs r (List.mem_of_mem_filter hr)),
          hq2 pings hp]
        simp
    | some ids =>
        simp only [eventStream]
        rw [hq _ (fun r hr =>
            hs r (List.mem_of_mem_filter (List.mem_of_mem_filter hr))),
          hq2 _ (fun r hr => hp r (List.mem_of_mem_filter hr))]
        simp

/-- Witness for C8 at concrete inputs: one stored status row and one stored
ping, with the cursor beyond both timestamps. -/
theorem eventStream_future_cursor_witness :
    eventStream [⟨1, "alpha", "up", 10⟩] [⟨1, "success", 11⟩] none none
      (some 99) 50 =
      [StreamChunk.retryDirective 5000, StreamChunk.heartbeat] :=
  eventStream_future_cursor [⟨1, "alpha", "up", 10⟩] [⟨1, "success", 11⟩]
    none none 99 50 (by decide) (by decide)

end PulseGuard
